import Mathlib

/-! Shallow embedding of the payment-and-publication subsystem of the
spectech backend (`src/routes/payments.js`, `src/routes/admin.js`,
`src/models/Payment.js`, and the business schema).  Mongo documents
become Lean structures, the Mongo collections become lists inside
`LedgerState`, and each Express handler becomes a state-passing
function.  External inputs (the Stripe gateway's view of a payment
intent, the random order-number draw, clock readings) are passed as
explicit arguments, so every handler is a pure function of its inputs
and the current ledger state. -/

/-- One document of the `Payment` collection (`src/models/Payment.js`).
The `metadata` Mixed map is represented by the two keys the routes
touch: `businessName` (set at creation, `payments.js` line 114) and
`orderId` (assigned by the confirm handler at line 211 — but on a
Mixed path without `markModified`, so the assignment is never
persisted by `payment.save()` and the stored key stays absent). -/
structure PaymentRecord where
  id : Nat
  userId : Nat
  businessId : Nat
  stripePaymentIntentId : String
  stripeCustomerId : Option String
  amount : Nat
  currency : String
  status : String
  description : String
  metaBusinessName : Option String
  metaOrderId : Option Nat
  failureReason : Option String
deriving Repr, DecidableEq

/-- The publication-relevant fields of a Business document
(`businessSchema`: `isApproved`, `paymentStatus`, `status`,
`paymentId`, `approvedAt`, `rejectedAt`, `rejectionReason`).
Timestamps are modelled as `Option Nat` clock readings. -/
structure BusinessRecord where
  id : Nat
  owner : Nat
  name : String
  isApproved : Bool
  paymentStatus : String
  status : String
  paymentId : Option Nat
  approvedAt : Option Nat
  rejectedAt : Option Nat
  rejectionReason : Option String
deriving Repr, DecidableEq

/-- One line item of an Order (`items` array built in the confirm
handler, `payments.js` lines 190-197). -/
structure OrderItem where
  name : String
  description : String
  amount : Nat
  quantity : Nat
deriving Repr, DecidableEq

/-- One document of the `Order` collection, with the fields the confirm
handler writes (`payments.js` lines 185-209). -/
structure OrderRecord where
  id : Nat
  userId : Nat
  businessId : Nat
  orderNumber : String
  paymentId : Nat
  items : List OrderItem
  subtotal : Nat
  taxes : Nat
  total : Nat
  currency : String
  status : String
  billingName : String
  billingEmail : String
  completedAt : Option Nat
deriving Repr, DecidableEq

/-- The authenticated user fields the payment routes read
(`req.user.id`, `req.user.email`, `req.user.firstName`,
`req.user.lastName`). -/
structure UserRecord where
  id : Nat
  email : String
  firstName : String
  lastName : String
deriving Repr, DecidableEq

/-- The gateway's view of a payment intent, as returned by
`stripe.paymentIntents.retrieve` or carried in a webhook event's
`data.object`: id, status, amount, `last_payment_error.message`, and
the first charge's `billing_details.name`. -/
structure PaymentIntentView where
  id : String
  status : String
  amount : Nat
  lastPaymentErrorMessage : Option String
  chargeBillingName : Option String
deriving Repr, DecidableEq

/-- The persistent state the payment and admin routes read and write:
the three Mongo collections plus counters.  `systemLogs` and
`notifications` count the `SystemLog.create` / `Notification.create`
calls (their contents play no role in any claim).  `nextPaymentId` and
`nextOrderId` model Mongo's fresh `_id` generation. -/
structure LedgerState where
  payments : List PaymentRecord
  businesses : List BusinessRecord
  orders : List OrderRecord
  systemLogs : Nat
  notifications : Nat
  nextPaymentId : Nat
  nextOrderId : Nat
deriving Repr, DecidableEq

/-- `Payment.findOne({ stripePaymentIntentId })` (webhook handlers). -/
def findPaymentByIntent (st : LedgerState) (intentId : String) : Option PaymentRecord :=
  st.payments.find? (fun p => p.stripePaymentIntentId == intentId)

/-- `Payment.findOne({ stripePaymentIntentId, user })` (confirm handler,
`payments.js` lines 163-166). -/
def findPaymentByIntentAndUser (st : LedgerState) (intentId : String) (userId : Nat) :
    Option PaymentRecord :=
  st.payments.find? (fun p => p.stripePaymentIntentId == intentId && p.userId == userId)

/-- `Payment.findOne({ _id, user })` (status poll, lines 248-251). -/
def findPaymentByIdAndUser (st : LedgerState) (paymentId userId : Nat) :
    Option PaymentRecord :=
  st.payments.find? (fun p => p.id == paymentId && p.userId == userId)

/-- `Business.findOne({ _id, owner })` (create-intent, lines 34-37). -/
def findBusinessOwned (st : LedgerState) (businessId ownerId : Nat) :
    Option BusinessRecord :=
  st.businesses.find? (fun b => b.id == businessId && b.owner == ownerId)

/-- `Business.findById` (admin routes). -/
def findBusinessById (st : LedgerState) (businessId : Nat) : Option BusinessRecord :=
  st.businesses.find? (fun b => b.id == businessId)

/-- `Payment.findOne({ business, status: "succeeded" })` is some iff this
holds (create-intent already-paid check, lines 47-50). -/
def existsSucceededPayment (st : LedgerState) (businessId : Nat) : Bool :=
  st.payments.any (fun p => p.businessId == businessId && p.status == "succeeded")

/-- The `status` enum of `paymentSchema` (`src/models/Payment.js`
lines 29-33).  Mongoose runs this validator on `payment.save()`. -/
def paymentStatusEnum : List String :=
  ["pending", "succeeded", "failed", "canceled", "requires_payment_method",
   "requires_confirmation", "requires_action", "processing"]

def validPaymentStatus (s : String) : Bool :=
  paymentStatusEnum.contains s

/-- Replace the stored document with the same `_id` by `p`. -/
def writePayment (st : LedgerState) (p : PaymentRecord) : LedgerState :=
  { st with payments := st.payments.map (fun q => if q.id == p.id then p else q) }

/-- `payment.save()`: the enum validator runs first; a failing validator
raises, leaving the collection untouched. -/
def savePayment (st : LedgerState) (p : PaymentRecord) : Except Unit LedgerState :=
  if validPaymentStatus p.status then Except.ok (writePayment st p) else Except.error ()

/-- `Business.findByIdAndUpdate(id, fields)`: update the matching
document in place (validators are not run by `findByIdAndUpdate`), and
do nothing when no document has that id. -/
def businessFindByIdAndUpdate (st : LedgerState) (businessId : Nat)
    (f : BusinessRecord → BusinessRecord) : LedgerState :=
  { st with businesses := st.businesses.map (fun b => if b.id == businessId then f b else b) }

/-- Replace the stored business with the same id by `b`
(`business.save()` in the admin routes; all values written there pass
the schema validators). -/
def writeBusiness (st : LedgerState) (b : BusinessRecord) : LedgerState :=
  { st with businesses := st.businesses.map (fun c => if c.id == b.id then b else c) }

/-- `generateOrderNumber` (`payments.js` lines 239-241): the
`Math.random()` draw is an explicit argument. -/
def generateOrderNumber (rand : Nat) : String :=
  "ORD-" ++ toString (rand % 1000000)

/-- Result of POST /api/payments/create-intent as the claims observe it. -/
inductive CreateIntentResult where
  | notFound
  | alreadyPaid
  | gatewayError
  | ok (intentId : String) (paymentId : Nat) (amount : Nat) (currency : String)
deriving Repr, DecidableEq

/-- A successful gateway round trip of the create-intent handler: the
(looked-up or created) customer and the freshly created intent.
`none` models the gateway call failing. -/
structure GatewayCustomerIntent where
  customerId : String
  intentId : String
deriving Repr, DecidableEq

/-- POST /api/payments/create-intent (`payments.js` lines 15-134):
verify ownership, short-circuit when a succeeded payment already exists
for the business (code BUSINESS_ALREADY_PAID), otherwise call the
gateway and append a fresh pending PaymentRecord for the fixed 9900
minor-unit fee. -/
def createIntent (user : UserRecord) (businessId : Nat)
    (gw : Option GatewayCustomerIntent) (st : LedgerState) :
    CreateIntentResult × LedgerState :=
  match findBusinessOwned st businessId user.id with
  | none => (CreateIntentResult.notFound, st)
  | some business =>
    if existsSucceededPayment st businessId then
      (CreateIntentResult.alreadyPaid, st)
    else
      match gw with
      | none => (CreateIntentResult.gatewayError, st)
      | some g =>
        let payment : PaymentRecord :=
          { id := st.nextPaymentId
            userId := user.id
            businessId := businessId
            stripePaymentIntentId := g.intentId
            stripeCustomerId := some g.customerId
            amount := 9900
            currency := "usd"
            status := "pending"
            description := "Business listing fee for " ++ business.name
            metaBusinessName := some business.name
            metaOrderId := none
            failureReason := none }
        let st1 : LedgerState :=
          { st with payments := st.payments ++ [payment]
                    nextPaymentId := st.nextPaymentId + 1 }
        (CreateIntentResult.ok g.intentId payment.id 9900 "usd", st1)

/-- Result of POST /api/payments/confirm as the claims observe it:
`ok` carries the status and message of the success JSON; `serverError`
is the catch-all 500 of the handler. -/
inductive ConfirmResult where
  | notFound
  | ok (status : String) (message : String)
  | serverError
deriving Repr, DecidableEq

/-- Modelled from the spec: the Order model file itself is not under
`src/` (only `src/routes/payments.js` requires it), and §3 declares the
generated order number unique ("Identity: generated order number
(unique, human-readable)").  An `Order.create` whose `orderNumber`
collides with a stored order therefore raises a duplicate-key error;
this predicate is that collision test. -/
def orderNumberExists (st : LedgerState) (n : String) : Bool :=
  st.orders.any (fun o => o.orderNumber == n)

/-- POST /api/payments/confirm (`payments.js` lines 139-237).  `gw` is
the intent returned by `stripe.paymentIntents.retrieve(intentId)`
(callers instantiate it with `gw.id = intentId`), `rand` the
`Math.random()` draw behind `generateOrderNumber`, `now` the clock.
The handler sets `payment.status` to the gateway status; on
`"succeeded"` it updates the business and creates an Order before
saving; on the literal status `"payment_failed"` it records a failure
reason.  Two raising writes feed the outer catch (500): an
`Order.create` whose generated number collides with the unique
`orderNumber` index (the business update is already committed,
`payment.save()` is never reached), and a `payment.save()` whose
status fails the schema enum (after the business/order writes have
been committed).  Line 211 also assigns `payment.metadata.orderId`,
but `metadata` is a Mixed path mutated without `markModified`, so
mongoose does not track the change and `payment.save()` never
persists the link: the saved document carries the tracked `status`
(and, in the failure branch, `failureReason`) assignments only. -/
def confirmPayment (user : UserRecord) (gw : PaymentIntentView)
    (rand now : Nat) (st : LedgerState) : ConfirmResult × LedgerState :=
  match findPaymentByIntentAndUser st gw.id user.id with
  | none => (ConfirmResult.notFound, st)
  | some payment =>
    if gw.status == "succeeded" then
      let st1 := businessFindByIdAndUpdate st payment.businessId
        (fun b => { b with paymentStatus := "paid", paymentId := some payment.id })
      if orderNumberExists st1 (generateOrderNumber rand) then
        (ConfirmResult.serverError, st1)
      else
        let order : OrderRecord :=
          { id := st1.nextOrderId
            userId := user.id
            businessId := payment.businessId
            orderNumber := generateOrderNumber rand
            paymentId := payment.id
            items := [{ name := "Business Listing Fee"
                        description := "One-time payment to publish your business on our platform"
                        amount := 9900
                        quantity := 1 }]
            subtotal := 9900
            taxes := 0
            total := 9900
            currency := "usd"
            status := "completed"
            billingName := gw.chargeBillingName.getD (user.firstName ++ " " ++ user.lastName)
            billingEmail := user.email
            completedAt := some now }
        let st2 : LedgerState :=
          { st1 with orders := st1.orders ++ [order], nextOrderId := st1.nextOrderId + 1 }
        let payment1 := { payment with status := gw.status }
        match savePayment st2 payment1 with
        | Except.ok st3 => (ConfirmResult.ok payment1.status "Payment successful", st3)
        | Except.error _ => (ConfirmResult.serverError, st2)
    else
      let payment1 :=
        if gw.status == "payment_failed" then
          { payment with status := gw.status
                         failureReason := some (gw.lastPaymentErrorMessage.getD "Payment failed") }
        else
          { payment with status := gw.status }
      match savePayment st payment1 with
      | Except.ok st1 => (ConfirmResult.ok payment1.status "Payment status updated", st1)
      | Except.error _ => (ConfirmResult.serverError, st)

/-- Result of GET /api/payments/:paymentId/status: the merged view the
route serializes (`payment.status` after any in-memory overwrite,
together with `failureReason`). -/
inductive GetStatusResult where
  | notFound
  | ok (status : String) (failureReason : Option String)
deriving Repr, DecidableEq

/-- GET /api/payments/:paymentId/status (`payments.js` lines 246-292).
`gwStatus` is the status reported by the gateway re-query, `none` when
`stripe.paymentIntents.retrieve` throws (swallowed by the inner catch).
When the gateway status differs from the stored one the route
overwrites `payment.status` and saves; a save whose status fails the
enum validator raises inside the same inner try, so the error is
swallowed, the collection keeps the old document, and the response
still serializes the in-memory (overwritten) status. -/
def getPaymentStatus (user : UserRecord) (paymentId : Nat) (gwStatus : Option String)
    (st : LedgerState) : GetStatusResult × LedgerState :=
  match findPaymentByIdAndUser st paymentId user.id with
  | none => (GetStatusResult.notFound, st)
  | some payment =>
    match gwStatus with
    | none => (GetStatusResult.ok payment.status payment.failureReason, st)
    | some s =>
      if payment.status != s then
        let payment1 := { payment with status := s }
        match savePayment st payment1 with
        | Except.ok st1 => (GetStatusResult.ok payment1.status payment1.failureReason, st1)
        | Except.error _ => (GetStatusResult.ok payment1.status payment1.failureReason, st)
      else
        (GetStatusResult.ok payment.status payment.failureReason, st)

/-- Fault injection for the webhook success handler: which of its three
awaited writes (`payment.save()`, `Business.findByIdAndUpdate`,
`SystemLog.create`) throws.  The handler's own try/catch swallows the
first raised error, keeping the writes committed before it. -/
structure WebhookFaults where
  saveThrows : Bool
  businessUpdateThrows : Bool
  logCreateThrows : Bool
deriving Repr, DecidableEq

def noFaults : WebhookFaults :=
  { saveThrows := false, businessUpdateThrows := false, logCreateThrows := false }

/-- `handlePaymentSucceeded` (`payments.js` lines 430-460): look up the
payment by intent id; if present, mark it succeeded, set the business
`paymentStatus` to paid, and write a SystemLog entry.  The whole body
is wrapped in try/catch, so a throwing write ends the handler silently
with the earlier writes kept. -/
def handlePaymentSucceeded (f : WebhookFaults) (pi : PaymentIntentView)
    (st : LedgerState) : LedgerState :=
  match findPaymentByIntent st pi.id with
  | none => st
  | some payment =>
    if f.saveThrows then st
    else
      match savePayment st { payment with status := "succeeded" } with
      | Except.error _ => st
      | Except.ok st1 =>
        if f.businessUpdateThrows then st1
        else
          let st2 := businessFindByIdAndUpdate st1 payment.businessId
            (fun b => { b with paymentStatus := "paid" })
          if f.logCreateThrows then st2
          else { st2 with systemLogs := st2.systemLogs + 1 }

/-- `handlePaymentFailed` (`payments.js` lines 463-482): mark the
payment failed with the gateway's `last_payment_error.message` (default
"Payment failed") and set the business `paymentStatus` to failed. -/
def handlePaymentFailed (pi : PaymentIntentView) (st : LedgerState) : LedgerState :=
  match findPaymentByIntent st pi.id with
  | none => st
  | some payment =>
    let payment1 :=
      { payment with status := "failed"
                     failureReason := some (pi.lastPaymentErrorMessage.getD "Payment failed") }
    match savePayment st payment1 with
    | Except.error _ => st
    | Except.ok st1 =>
      businessFindByIdAndUpdate st1 payment.businessId
        (fun b => { b with paymentStatus := "failed" })

/-- `handlePaymentCanceled` (`payments.js` lines 485-503): mark the
payment canceled and reset the business `paymentStatus` to pending. -/
def handlePaymentCanceled (pi : PaymentIntentView) (st : LedgerState) : LedgerState :=
  match findPaymentByIntent st pi.id with
  | none => st
  | some payment =>
    match savePayment st { payment with status := "canceled" } with
    | Except.error _ => st
    | Except.ok st1 =>
      businessFindByIdAndUpdate st1 payment.businessId
        (fun b => { b with paymentStatus := "pending" })

/-- POST /api/payments/webhook after signature verification
(`payments.js` lines 407-426), returning the HTTP status code and the
new state.  The route's own catch would answer 500, but each dispatched
handler swallows its internal errors, so every recognized or unknown
event type answers 200 `{received: true}`. -/
def stripeWebhook (f : WebhookFaults) (eventType : String) (pi : PaymentIntentView)
    (st : LedgerState) : Nat × LedgerState :=
  if eventType == "payment_intent.succeeded" then
    (200, handlePaymentSucceeded f pi st)
  else if eventType == "payment_intent.payment_failed" then
    (200, handlePaymentFailed pi st)
  else if eventType == "payment_intent.canceled" then
    (200, handlePaymentCanceled pi st)
  else
    (200, st)

/-- Result of the admin approve/reject routes as the claims observe it. -/
inductive AdminResult where
  | notFound
  | paymentNotCompleted
  | validationFailed
  | ok
deriving Repr, DecidableEq

/-- PUT /api/admin/businesses/:id/approve (`admin.js` lines 284-343):
refuse with 400 unless `paymentStatus == "paid"`; otherwise set
`isApproved`, stamp `approvedAt`, clear the rejection fields, and write
a notification and a SystemLog entry. -/
def approveBusiness (businessId now : Nat) (st : LedgerState) :
    AdminResult × LedgerState :=
  match findBusinessById st businessId with
  | none => (AdminResult.notFound, st)
  | some business =>
    if business.paymentStatus != "paid" then
      (AdminResult.paymentNotCompleted, st)
    else
      let st1 := writeBusiness st
        { business with isApproved := true, approvedAt := some now,
                        rejectedAt := none, rejectionReason := none }
      (AdminResult.ok,
        { st1 with notifications := st1.notifications + 1, systemLogs := st1.systemLogs + 1 })

/-- PUT /api/admin/businesses/:id/reject (`admin.js` lines 348-399):
a non-empty reason is required; set `isApproved := false`, stamp
`rejectedAt`, store the reason, and write a notification and a
SystemLog entry.  `approvedAt` is not touched. -/
def rejectBusiness (businessId : Nat) (reason : String) (now : Nat)
    (st : LedgerState) : AdminResult × LedgerState :=
  if reason == "" then (AdminResult.validationFailed, st)
  else
    match findBusinessById st businessId with
    | none => (AdminResult.notFound, st)
    | some business =>
      let st1 := writeBusiness st
        { business with isApproved := false, rejectedAt := some now,
                        rejectionReason := some reason }
      (AdminResult.ok,
        { st1 with notifications := st1.notifications + 1, systemLogs := st1.systemLogs + 1 })

/-- The ledger state as claim C1 compares it: the PaymentRecord
collection, the BusinessPublicationState, and the OrderRecord set
(SystemLog/Notification counts and id counters are not part of the
compared state). -/
def ledgerView (st : LedgerState) :
    List PaymentRecord × List BusinessRecord × List OrderRecord :=
  (st.payments, st.businesses, st.orders)

/-! Concrete fixtures used by witnesses and counterexamples: one
business owner, one draft business, and one pending payment intent
`pi_1` for the 9900 minor-unit listing fee. -/

def demoUser : UserRecord :=
  { id := 1, email := "owner@example.com", firstName := "Ada", lastName := "Lovelace" }

def demoBusiness : BusinessRecord :=
  { id := 10, owner := 1, name := "Acme", isApproved := false,
    paymentStatus := "pending", status := "draft", paymentId := none,
    approvedAt := none, rejectedAt := none, rejectionReason := none }

def demoPayment : PaymentRecord :=
  { id := 100, userId := 1, businessId := 10, stripePaymentIntentId := "pi_1",
    stripeCustomerId := some "cus_1", amount := 9900, currency := "usd",
    status := "pending", description := "Business listing fee for Acme",
    metaBusinessName := some "Acme", metaOrderId := none, failureReason := none }

def demoState : LedgerState :=
  { payments := [demoPayment], businesses := [demoBusiness], orders := [],
    systemLogs := 0, notifications := 0, nextPaymentId := 101, nextOrderId := 200 }

/-- The gateway reporting `pi_1` succeeded. -/
def succeededView : PaymentIntentView :=
  { id := "pi_1", status := "succeeded", amount := 9900,
    lastPaymentErrorMessage := none, chargeBillingName := none }

/-- The gateway reporting `pi_1` failed with a declined card. -/
def declinedView : PaymentIntentView :=
  { id := "pi_1", status := "failed", amount := 9900,
    lastPaymentErrorMessage := some "card_declined", chargeBillingName := none }

/-- The gateway reporting `pi_1` canceled. -/
def canceledView : PaymentIntentView :=
  { id := "pi_1", status := "canceled", amount := 9900,
    lastPaymentErrorMessage := none, chargeBillingName := none }

/-! General lemmas about keyed in-place updates of a collection, the
shape shared by `writePayment`, `writeBusiness` and
`businessFindByIdAndUpdate`. -/

/-- After replacing the (found) matching document by a replacement that
still satisfies the search predicate, the search finds the
replacement. -/
theorem find?_map_keyed_write {α : Type} (idf : α → Nat) (pred : α → Bool)
    (l : List α) (p0 p' : α) (hp : pred p' = true) :
    l.find? pred = some p0 →
    (l.map (fun q => if idf q == idf p0 then p' else q)).find? pred = some p' := by
  induction l with
  | nil => intro h; simp at h
  | cons a t ih =>
    intro h
    by_cases ha : pred a = true
    · rw [List.find?_cons_of_pos _ ha] at h
      injection h with h
      subst h
      simp only [List.map_cons, beq_self_eq_true, if_true]
      exact List.find?_cons_of_pos _ hp
    · rw [List.find?_cons_of_neg _ ha] at h
      simp only [List.map_cons]
      by_cases hid : (idf a == idf p0) = true
      · rw [if_pos hid]
        exact List.find?_cons_of_pos _ hp
      · rw [if_neg hid]
        rw [List.find?_cons_of_neg _ ha]
        exact ih h

/-- A keyed update whose replacement function is idempotent and
key-preserving on matching documents is idempotent on the whole
collection. -/
theorem map_keyed_write_idem {α : Type} (idf : α → Nat) (k : Nat) (f : α → α)
    (hid : ∀ a, idf a = k → idf (f a) = k) (hf : ∀ a, idf a = k → f (f a) = f a)
    (l : List α) :
    (l.map (fun a => if idf a == k then f a else a)).map
        (fun a => if idf a == k then f a else a)
      = l.map (fun a => if idf a == k then f a else a) := by
  rw [List.map_map]
  apply List.map_congr_left
  intro a _
  simp only [Function.comp_apply]
  by_cases h : idf a = k
  · simp [h, hid a h, hf a h]
  · simp [h]

/-- Keyed updates do not change which documents a key-disjoint search
fails to find: if no document satisfies a predicate that the
replacement also fails, the search still fails. -/
theorem find?_map_keyed_write_none {α : Type} (idf : α → Nat) (pred : α → Bool)
    (k : Nat) (p' : α) (hp : pred p' = false) (l : List α) :
    l.find? pred = none →
    (l.map (fun q => if idf q == k then p' else q)).find? pred = none := by
  induction l with
  | nil => intro _; simp
  | cons a t ih =>
    intro h
    rw [List.find?_cons] at h
    simp only [List.map_cons, List.find?_cons]
    cases ha : pred a with
    | true => rw [ha] at h; simp at h
    | false =>
      rw [ha] at h
      by_cases hid : (idf a == k) = true
      · rw [if_pos hid, hp]
        exact ih h
      · rw [if_neg hid, ha]
        exact ih h

/-! Characterization of each webhook handler on a found / not-found
payment, as one explicit state equation each. -/

theorem handlePaymentSucceeded_notFound (f : WebhookFaults) (pi : PaymentIntentView)
    (st : LedgerState) (h : findPaymentByIntent st pi.id = none) :
    handlePaymentSucceeded f pi st = st := by
  unfold handlePaymentSucceeded
  rw [h]

theorem handlePaymentSucceeded_found (pi : PaymentIntentView) (st : LedgerState)
    (payment : PaymentRecord) (h : findPaymentByIntent st pi.id = some payment) :
    handlePaymentSucceeded noFaults pi st =
      { payments := st.payments.map
          (fun q => if q.id == payment.id then { payment with status := "succeeded" } else q)
        businesses := st.businesses.map
          (fun b => if b.id == payment.businessId then { b with paymentStatus := "paid" } else b)
        orders := st.orders
        systemLogs := st.systemLogs + 1
        notifications := st.notifications
        nextPaymentId := st.nextPaymentId
        nextOrderId := st.nextOrderId } := by
  unfold handlePaymentSucceeded
  rw [h]
  simp [noFaults, savePayment, validPaymentStatus, paymentStatusEnum,
    writePayment, businessFindByIdAndUpdate]

theorem handlePaymentFailed_notFound (pi : PaymentIntentView)
    (st : LedgerState) (h : findPaymentByIntent st pi.id = none) :
    handlePaymentFailed pi st = st := by
  unfold handlePaymentFailed
  rw [h]

theorem handlePaymentFailed_found (pi : PaymentIntentView) (st : LedgerState)
    (payment : PaymentRecord) (h : findPaymentByIntent st pi.id = some payment) :
    handlePaymentFailed pi st =
      { payments := st.payments.map
          (fun q => if q.id == payment.id then
            { payment with status := "failed"
                           failureReason := some (pi.lastPaymentErrorMessage.getD "Payment failed") }
            else q)
        businesses := st.businesses.map
          (fun b => if b.id == payment.businessId then { b with paymentStatus := "failed" } else b)
        orders := st.orders
        systemLogs := st.systemLogs
        notifications := st.notifications
        nextPaymentId := st.nextPaymentId
        nextOrderId := st.nextOrderId } := by
  unfold handlePaymentFailed
  rw [h]
  simp [savePayment, validPaymentStatus, paymentStatusEnum,
    writePayment, businessFindByIdAndUpdate]

theorem handlePaymentCanceled_notFound (pi : PaymentIntentView)
    (st : LedgerState) (h : findPaymentByIntent st pi.id = none) :
    handlePaymentCanceled pi st = st := by
  unfold handlePaymentCanceled
  rw [h]

theorem handlePaymentCanceled_found (pi : PaymentIntentView) (st : LedgerState)
    (payment : PaymentRecord) (h : findPaymentByIntent st pi.id = some payment) :
    handlePaymentCanceled pi st =
      { payments := st.payments.map
          (fun q => if q.id == payment.id then { payment with status := "canceled" } else q)
        businesses := st.businesses.map
          (fun b => if b.id == payment.businessId then { b with paymentStatus := "pending" } else b)
        orders := st.orders
        systemLogs := st.systemLogs
        notifications := st.notifications
        nextPaymentId := st.nextPaymentId
        nextOrderId := st.nextOrderId } := by
  unfold handlePaymentCanceled
  rw [h]
  simp [savePayment, validPaymentStatus, paymentStatusEnum,
    writePayment, businessFindByIdAndUpdate]

/-! Characterization of the confirm endpoint, branch by branch. -/

theorem confirmPayment_notFound (user : UserRecord) (gw : PaymentIntentView)
    (rand now : Nat) (st : LedgerState)
    (h : findPaymentByIntentAndUser st gw.id user.id = none) :
    confirmPayment user gw rand now st = (ConfirmResult.notFound, st) := by
  unfold confirmPayment
  rw [h]

theorem confirmPayment_succeeded (user : UserRecord) (gw : PaymentIntentView)
    (rand now : Nat) (st : LedgerState) (payment : PaymentRecord)
    (h : findPaymentByIntentAndUser st gw.id user.id = some payment)
    (hs : gw.status = "succeeded")
    (hdup : orderNumberExists st (generateOrderNumber rand) = false) :
    confirmPayment user gw rand now st =
      (ConfirmResult.ok "succeeded" "Payment successful",
        { payments := st.payments.map
            (fun q => if q.id == payment.id then
              { payment with status := "succeeded" }
              else q)
          businesses := st.businesses.map
            (fun b => if b.id == payment.businessId then
              { b with paymentStatus := "paid", paymentId := some payment.id }
              else b)
          orders := st.orders ++
            [{ id := st.nextOrderId
               userId := user.id
               businessId := payment.businessId
               orderNumber := generateOrderNumber rand
               paymentId := payment.id
               items := [{ name := "Business Listing Fee"
                           description := "One-time payment to publish your business on our platform"
                           amount := 9900
                           quantity := 1 }]
               subtotal := 9900
               taxes := 0
               total := 9900
               currency := "usd"
               status := "completed"
               billingName := gw.chargeBillingName.getD (user.firstName ++ " " ++ user.lastName)
               billingEmail := user.email
               completedAt := some now }]
          systemLogs := st.systemLogs
          notifications := st.notifications
          nextPaymentId := st.nextPaymentId
          nextOrderId := st.nextOrderId + 1 }) := by
  unfold confirmPayment
  rw [h]
  simp only [orderNumberExists] at hdup
  simp [hs, orderNumberExists, hdup, savePayment, validPaymentStatus, paymentStatusEnum,
    writePayment, businessFindByIdAndUpdate]

/-- When the drawn order number collides with a stored order, the
succeeded branch of the confirm handler fails at `Order.create`: the
route answers 500 with the business update already committed and no
new order, and the payment document is never saved. -/
theorem confirmPayment_succeeded_dupNumber (user : UserRecord) (gw : PaymentIntentView)
    (rand now : Nat) (st : LedgerState) (payment : PaymentRecord)
    (h : findPaymentByIntentAndUser st gw.id user.id = some payment)
    (hs : gw.status = "succeeded")
    (hdup : orderNumberExists st (generateOrderNumber rand) = true) :
    confirmPayment user gw rand now st =
      (ConfirmResult.serverError,
        { st with businesses := st.businesses.map (fun b =>
            if b.id == payment.businessId then
              { b with paymentStatus := "paid", paymentId := some payment.id }
            else b) }) := by
  unfold confirmPayment
  rw [h]
  simp only [orderNumberExists] at hdup
  simp [hs, orderNumberExists, hdup, businessFindByIdAndUpdate]

theorem confirmPayment_otherValid (user : UserRecord) (gw : PaymentIntentView)
    (rand now : Nat) (st : LedgerState) (payment : PaymentRecord)
    (h : findPaymentByIntentAndUser st gw.id user.id = some payment)
    (hs : gw.status ≠ "succeeded") (hpf : gw.status ≠ "payment_failed")
    (hv : validPaymentStatus gw.status = true) :
    confirmPayment user gw rand now st =
      (ConfirmResult.ok gw.status "Payment status updated",
        { st with payments := st.payments.map (fun q =>
            if q.id == payment.id then { payment with status := gw.status } else q) }) := by
  unfold confirmPayment
  rw [h]
  simp [hs, hpf, savePayment, hv, writePayment]

theorem confirmPayment_invalidStatus (user : UserRecord) (gw : PaymentIntentView)
    (rand now : Nat) (st : LedgerState) (payment : PaymentRecord)
    (h : findPaymentByIntentAndUser st gw.id user.id = some payment)
    (hs : gw.status ≠ "succeeded") (hv : validPaymentStatus gw.status = false) :
    confirmPayment user gw rand now st = (ConfirmResult.serverError, st) := by
  unfold confirmPayment
  rw [h]
  by_cases hpf : gw.status = "payment_failed"
  · have hv2 : validPaymentStatus "payment_failed" = false := by decide
    simp [hs, hpf, savePayment, hv2]
  · simp [hs, hpf, savePayment, hv]

/-! Characterization of the status poll, the admin routes and the
create-intent route. -/

theorem getPaymentStatus_notFound (user : UserRecord) (paymentId : Nat)
    (gwStatus : Option String) (st : LedgerState)
    (h : findPaymentByIdAndUser st paymentId user.id = none) :
    getPaymentStatus user paymentId gwStatus st = (GetStatusResult.notFound, st) := by
  unfold getPaymentStatus
  rw [h]

theorem getPaymentStatus_gatewayDown (user : UserRecord) (paymentId : Nat)
    (st : LedgerState) (payment : PaymentRecord)
    (h : findPaymentByIdAndUser st paymentId user.id = some payment) :
    getPaymentStatus user paymentId none st =
      (GetStatusResult.ok payment.status payment.failureReason, st) := by
  unfold getPaymentStatus
  rw [h]

theorem getPaymentStatus_same (user : UserRecord) (paymentId : Nat) (s : String)
    (st : LedgerState) (payment : PaymentRecord)
    (h : findPaymentByIdAndUser st paymentId user.id = some payment)
    (hs : payment.status = s) :
    getPaymentStatus user paymentId (some s) st =
      (GetStatusResult.ok payment.status payment.failureReason, st) := by
  unfold getPaymentStatus
  rw [h]
  simp [hs]

theorem getPaymentStatus_diffValid (user : UserRecord) (paymentId : Nat) (s : String)
    (st : LedgerState) (payment : PaymentRecord)
    (h : findPaymentByIdAndUser st paymentId user.id = some payment)
    (hs : payment.status ≠ s) (hv : validPaymentStatus s = true) :
    getPaymentStatus user paymentId (some s) st =
      (GetStatusResult.ok s payment.failureReason,
        { st with payments := st.payments.map (fun q =>
            if q.id == payment.id then { payment with status := s } else q) }) := by
  unfold getPaymentStatus
  rw [h]
  simp [hs, savePayment, hv, writePayment]

theorem getPaymentStatus_diffInvalid (user : UserRecord) (paymentId : Nat) (s : String)
    (st : LedgerState) (payment : PaymentRecord)
    (h : findPaymentByIdAndUser st paymentId user.id = some payment)
    (hs : payment.status ≠ s) (hv : validPaymentStatus s = false) :
    getPaymentStatus user paymentId (some s) st =
      (GetStatusResult.ok s payment.failureReason, st) := by
  unfold getPaymentStatus
  rw [h]
  simp [hs, savePayment, hv]

theorem approveBusiness_notFound (businessId now : Nat) (st : LedgerState)
    (h : findBusinessById st businessId = none) :
    approveBusiness businessId now st = (AdminResult.notFound, st) := by
  unfold approveBusiness
  rw [h]

theorem approveBusiness_notPaid (businessId now : Nat) (st : LedgerState)
    (business : BusinessRecord) (h : findBusinessById st businessId = some business)
    (hp : business.paymentStatus ≠ "paid") :
    approveBusiness businessId now st = (AdminResult.paymentNotCompleted, st) := by
  unfold approveBusiness
  rw [h]
  simp [hp]

theorem approveBusiness_paid (businessId now : Nat) (st : LedgerState)
    (business : BusinessRecord) (h : findBusinessById st businessId = some business)
    (hp : business.paymentStatus = "paid") :
    approveBusiness businessId now st =
      (AdminResult.ok,
        { payments := st.payments
          businesses := st.businesses.map (fun c =>
            if c.id == business.id then
              { business with isApproved := true, approvedAt := some now,
                              rejectedAt := none, rejectionReason := none }
            else c)
          orders := st.orders
          systemLogs := st.systemLogs + 1
          notifications := st.notifications + 1
          nextPaymentId := st.nextPaymentId
          nextOrderId := st.nextOrderId }) := by
  unfold approveBusiness
  rw [h]
  simp [hp, writeBusiness]

theorem rejectBusiness_emptyReason (businessId now : Nat) (st : LedgerState) :
    rejectBusiness businessId "" now st = (AdminResult.validationFailed, st) := by
  unfold rejectBusiness
  simp

theorem rejectBusiness_notFound (businessId : Nat) (reason : String) (now : Nat)
    (st : LedgerState) (hr : reason ≠ "")
    (h : findBusinessById st businessId = none) :
    rejectBusiness businessId reason now st = (AdminResult.notFound, st) := by
  unfold rejectBusiness
  rw [h]
  simp [hr]

theorem rejectBusiness_found (businessId : Nat) (reason : String) (now : Nat)
    (st : LedgerState) (business : BusinessRecord) (hr : reason ≠ "")
    (h : findBusinessById st businessId = some business) :
    rejectBusiness businessId reason now st =
      (AdminResult.ok,
        { payments := st.payments
          businesses := st.businesses.map (fun c =>
            if c.id == business.id then
              { business with isApproved := false, rejectedAt := some now,
                              rejectionReason := some reason }
            else c)
          orders := st.orders
          systemLogs := st.systemLogs + 1
          notifications := st.notifications + 1
          nextPaymentId := st.nextPaymentId
          nextOrderId := st.nextOrderId }) := by
  unfold rejectBusiness
  rw [h]
  simp [hr, writeBusiness]

theorem createIntent_notFound (user : UserRecord) (businessId : Nat)
    (gw : Option GatewayCustomerIntent) (st : LedgerState)
    (h : findBusinessOwned st businessId user.id = none) :
    createIntent user businessId gw st = (CreateIntentResult.notFound, st) := by
  unfold createIntent
  rw [h]

theorem createIntent_alreadyPaid (user : UserRecord) (businessId : Nat)
    (gw : Option GatewayCustomerIntent) (st : LedgerState)
    (business : BusinessRecord)
    (h : findBusinessOwned st businessId user.id = some business)
    (hp : existsSucceededPayment st businessId = true) :
    createIntent user businessId gw st = (CreateIntentResult.alreadyPaid, st) := by
  unfold createIntent
  rw [h]
  simp [hp]

theorem createIntent_fresh (user : UserRecord) (businessId : Nat)
    (g : GatewayCustomerIntent) (st : LedgerState) (business : BusinessRecord)
    (h : findBusinessOwned st businessId user.id = some business)
    (hp : existsSucceededPayment st businessId = false) :
    createIntent user businessId (some g) st =
      (CreateIntentResult.ok g.intentId st.nextPaymentId 9900 "usd",
        { st with
          payments := st.payments ++
            [{ id := st.nextPaymentId
               userId := user.id
               businessId := businessId
               stripePaymentIntentId := g.intentId
               stripeCustomerId := some g.customerId
               amount := 9900
               currency := "usd"
               status := "pending"
               description := "Business listing fee for " ++ business.name
               metaBusinessName := some business.name
               metaOrderId := none
               failureReason := none }]
          nextPaymentId := st.nextPaymentId + 1 }) := by
  unfold createIntent
  rw [h]
  simp [hp]

/-! Re-delivery lemmas: applying the same observation a second time. -/

theorem handlePaymentSucceeded_reapply (pi : PaymentIntentView) (st : LedgerState) :
    ledgerView (handlePaymentSucceeded noFaults pi (handlePaymentSucceeded noFaults pi st))
      = ledgerView (handlePaymentSucceeded noFaults pi st) := by
  cases hfind : findPaymentByIntent st pi.id with
  | none =>
    rw [handlePaymentSucceeded_notFound _ _ _ hfind,
      handlePaymentSucceeded_notFound _ _ _ hfind]
  | some p =>
    have hfind0 : st.payments.find? (fun q => q.stripePaymentIntentId == pi.id) = some p :=
      hfind
    have hpred0 : (p.stripePaymentIntentId == pi.id) = true :=
      @List.find?_some PaymentRecord (fun q => q.stripePaymentIntentId == pi.id) p st.payments hfind0
    have hpred : ((fun q : PaymentRecord => q.stripePaymentIntentId == pi.id)
        { p with status := "succeeded" }) = true := hpred0
    have hfind' : findPaymentByIntent (handlePaymentSucceeded noFaults pi st) pi.id
        = some { p with status := "succeeded" } := by
      rw [handlePaymentSucceeded_found pi st p hfind]
      exact find?_map_keyed_write (fun q => q.id)
        (fun q => q.stripePaymentIntentId == pi.id) st.payments p
        { p with status := "succeeded" } hpred hfind0
    rw [handlePaymentSucceeded_found pi (handlePaymentSucceeded noFaults pi st)
      { p with status := "succeeded" } hfind',
      handlePaymentSucceeded_found pi st p hfind]
    simp only [ledgerView, Prod.mk.injEq]
    refine ⟨?_, ?_, trivial⟩
    · exact map_keyed_write_idem (fun q : PaymentRecord => q.id) p.id
        (fun _ => { p with status := "succeeded" }) (fun _ _ => rfl) (fun _ _ => rfl)
        st.payments
    · exact map_keyed_write_idem (fun b : BusinessRecord => b.id) p.businessId
        (fun b => { b with paymentStatus := "paid" }) (fun _ ha => ha) (fun _ _ => rfl)
        st.businesses

theorem handlePaymentFailed_reapply (pi : PaymentIntentView) (st : LedgerState) :
    ledgerView (handlePaymentFailed pi (handlePaymentFailed pi st))
      = ledgerView (handlePaymentFailed pi st) := by
  cases hfind : findPaymentByIntent st pi.id with
  | none =>
    rw [handlePaymentFailed_notFound _ _ hfind, handlePaymentFailed_notFound _ _ hfind]
  | some p =>
    have hfind0 : st.payments.find? (fun q => q.stripePaymentIntentId == pi.id) = some p :=
      hfind
    have hpred0 : (p.stripePaymentIntentId == pi.id) = true :=
      @List.find?_some PaymentRecord (fun q => q.stripePaymentIntentId == pi.id) p st.payments hfind0
    have hpred : ((fun q : PaymentRecord => q.stripePaymentIntentId == pi.id)
        { p with status := "failed"
                 failureReason := some (pi.lastPaymentErrorMessage.getD "Payment failed") })
        = true := hpred0
    have hfind' : findPaymentByIntent (handlePaymentFailed pi st) pi.id
        = some { p with status := "failed"
                        failureReason := some (pi.lastPaymentErrorMessage.getD "Payment failed") } := by
      rw [handlePaymentFailed_found pi st p hfind]
      exact find?_map_keyed_write (fun q => q.id)
        (fun q => q.stripePaymentIntentId == pi.id) st.payments p
        { p with status := "failed"
                 failureReason := some (pi.lastPaymentErrorMessage.getD "Payment failed") }
        hpred hfind0
    rw [handlePaymentFailed_found pi (handlePaymentFailed pi st)
      { p with status := "failed"
               failureReason := some (pi.lastPaymentErrorMessage.getD "Payment failed") } hfind',
      handlePaymentFailed_found pi st p hfind]
    simp only [ledgerView, Prod.mk.injEq]
    refine ⟨?_, ?_, trivial⟩
    · exact map_keyed_write_idem (fun q : PaymentRecord => q.id) p.id
        (fun _ => { p with status := "failed"
                           failureReason := some (pi.lastPaymentErrorMessage.getD "Payment failed") })
        (fun _ _ => rfl) (fun _ _ => rfl) st.payments
    · exact map_keyed_write_idem (fun b : BusinessRecord => b.id) p.businessId
        (fun b => { b with paymentStatus := "failed" }) (fun _ ha => ha) (fun _ _ => rfl)
        st.businesses

theorem handlePaymentCanceled_reapply (pi : PaymentIntentView) (st : LedgerState) :
    ledgerView (handlePaymentCanceled pi (handlePaymentCanceled pi st))
      = ledgerView (handlePaymentCanceled pi st) := by
  cases hfind : findPaymentByIntent st pi.id with
  | none =>
    rw [handlePaymentCanceled_notFound _ _ hfind, handlePaymentCanceled_notFound _ _ hfind]
  | some p =>
    have hfind0 : st.payments.find? (fun q => q.stripePaymentIntentId == pi.id) = some p :=
      hfind
    have hpred0 : (p.stripePaymentIntentId == pi.id) = true :=
      @List.find?_some PaymentRecord (fun q => q.stripePaymentIntentId == pi.id) p st.payments hfind0
    have hpred : ((fun q : PaymentRecord => q.stripePaymentIntentId == pi.id)
        { p with status := "canceled" }) = true := hpred0
    have hfind' : findPaymentByIntent (handlePaymentCanceled pi st) pi.id
        = some { p with status := "canceled" } := by
      rw [handlePaymentCanceled_found pi st p hfind]
      exact find?_map_keyed_write (fun q => q.id)
        (fun q => q.stripePaymentIntentId == pi.id) st.payments p
        { p with status := "canceled" } hpred hfind0
    rw [handlePaymentCanceled_found pi (handlePaymentCanceled pi st)
      { p with status := "canceled" } hfind',
      handlePaymentCanceled_found pi st p hfind]
    simp only [ledgerView, Prod.mk.injEq]
    refine ⟨?_, ?_, trivial⟩
    · exact map_keyed_write_idem (fun q : PaymentRecord => q.id) p.id
        (fun _ => { p with status := "canceled" }) (fun _ _ => rfl) (fun _ _ => rfl)
        st.payments
    · exact map_keyed_write_idem (fun b : BusinessRecord => b.id) p.businessId
        (fun b => { b with paymentStatus := "pending" }) (fun _ ha => ha) (fun _ _ => rfl)
        st.businesses

theorem stripeWebhook_reapply (ev : String) (pi : PaymentIntentView) (st : LedgerState) :
    ledgerView (stripeWebhook noFaults ev pi (stripeWebhook noFaults ev pi st).2).2
      = ledgerView (stripeWebhook noFaults ev pi st).2 := by
  unfold stripeWebhook
  by_cases h1 : ev = "payment_intent.succeeded"
  · simp only [h1, beq_self_eq_true, if_true]
    exact handlePaymentSucceeded_reapply pi st
  · by_cases h2 : ev = "payment_intent.payment_failed"
    · simp only [h1, h2, beq_self_eq_true, if_true, beq_iff_eq, if_false]
      exact handlePaymentFailed_reapply pi st
    · by_cases h3 : ev = "payment_intent.canceled"
      · simp only [h1, h2, h3, beq_self_eq_true, if_true, beq_iff_eq, if_false]
        exact handlePaymentCanceled_reapply pi st
      · simp only [beq_iff_eq, h1, h2, h3, if_false]

theorem confirmPayment_reapply_nonSucceeded (u : UserRecord) (gw : PaymentIntentView)
    (rand now rand2 now2 : Nat) (st : LedgerState) (hs : gw.status ≠ "succeeded") :
    (confirmPayment u gw rand2 now2 (confirmPayment u gw rand now st).2).2
      = (confirmPayment u gw rand now st).2 := by
  cases hfind : findPaymentByIntentAndUser st gw.id u.id with
  | none =>
    rw [confirmPayment_notFound u gw rand now st hfind]
    rw [confirmPayment_notFound u gw rand2 now2 st hfind]
  | some p =>
    by_cases hpf : gw.status = "payment_failed"
    · have hv : validPaymentStatus gw.status = false := by rw [hpf]; decide
      rw [confirmPayment_invalidStatus u gw rand now st p hfind hs hv]
      rw [confirmPayment_invalidStatus u gw rand2 now2 st p hfind hs hv]
    · cases hv : validPaymentStatus gw.status with
      | false =>
        rw [confirmPayment_invalidStatus u gw rand now st p hfind hs hv]
        rw [confirmPayment_invalidStatus u gw rand2 now2 st p hfind hs hv]
      | true =>
        rw [confirmPayment_otherValid u gw rand now st p hfind hs hpf hv]
        have hfind0 : st.payments.find?
            (fun q => q.stripePaymentIntentId == gw.id && q.userId == u.id) = some p := hfind
        have hpred0 : (p.stripePaymentIntentId == gw.id && p.userId == u.id) = true :=
          @List.find?_some PaymentRecord
            (fun q => q.stripePaymentIntentId == gw.id && q.userId == u.id) p st.payments hfind0
        have hfind' : findPaymentByIntentAndUser
            ({ st with payments := st.payments.map (fun q =>
                if q.id == p.id then { p with status := gw.status } else q) }) gw.id u.id
            = some { p with status := gw.status } := by
          exact find?_map_keyed_write (fun q => q.id)
            (fun q => q.stripePaymentIntentId == gw.id && q.userId == u.id) st.payments p
            { p with status := gw.status } hpred0 hfind0
        rw [confirmPayment_otherValid u gw rand2 now2 _ { p with status := gw.status }
          hfind' hs hpf hv]
        exact congrArg (fun l => { st with payments := l })
          (map_keyed_write_idem (fun q : PaymentRecord => q.id) p.id
            (fun _ => { p with status := gw.status }) (fun _ _ => rfl) (fun _ _ => rfl)
            st.payments)

theorem confirmPayment_succeeded_adds_order_each_time (u : UserRecord)
    (gw : PaymentIntentView) (rand now rand2 now2 : Nat) (st : LedgerState)
    (p : PaymentRecord)
    (hfind : findPaymentByIntentAndUser st gw.id u.id = some p)
    (hs : gw.status = "succeeded")
    (h1 : orderNumberExists st (generateOrderNumber rand) = false)
    (h2 : orderNumberExists st (generateOrderNumber rand2) = false)
    (h3 : generateOrderNumber rand2 ≠ generateOrderNumber rand) :
    ((confirmPayment u gw rand now st).2).orders.length = st.orders.length + 1 ∧
    ((confirmPayment u gw rand2 now2 (confirmPayment u gw rand now st).2).2).orders.length
      = st.orders.length + 2 := by
  have hfind0 : st.payments.find?
      (fun q => q.stripePaymentIntentId == gw.id && q.userId == u.id) = some p := hfind
  have hpred0 : (p.stripePaymentIntentId == gw.id && p.userId == u.id) = true :=
    @List.find?_some PaymentRecord
      (fun q => q.stripePaymentIntentId == gw.id && q.userId == u.id) p st.payments hfind0
  rw [confirmPayment_succeeded u gw rand now st p hfind hs h1]
  have hfind' : findPaymentByIntentAndUser
      ({ payments := st.payments.map (fun q => if q.id == p.id then
            { p with status := "succeeded" } else q)
         businesses := st.businesses.map (fun b => if b.id == p.businessId then
            { b with paymentStatus := "paid", paymentId := some p.id } else b)
         orders := st.orders ++
           [{ id := st.nextOrderId
              userId := u.id
              businessId := p.businessId
              orderNumber := generateOrderNumber rand
              paymentId := p.id
              items := [{ name := "Business Listing Fee"
                          description := "One-time payment to publish your business on our platform"
                          amount := 9900
                          quantity := 1 }]
              subtotal := 9900
              taxes := 0
              total := 9900
              currency := "usd"
              status := "completed"
              billingName := gw.chargeBillingName.getD (u.firstName ++ " " ++ u.lastName)
              billingEmail := u.email
              completedAt := some now }]
         systemLogs := st.systemLogs
         notifications := st.notifications
         nextPaymentId := st.nextPaymentId
         nextOrderId := st.nextOrderId + 1 : LedgerState }) gw.id u.id
      = some { p with status := "succeeded" } := by
    exact find?_map_keyed_write (fun q => q.id)
      (fun q => q.stripePaymentIntentId == gw.id && q.userId == u.id) st.payments p
      { p with status := "succeeded" } hpred0 hfind0
  simp only [orderNumberExists] at h2
  have hdup2 : orderNumberExists
      ({ payments := st.payments.map (fun q => if q.id == p.id then
            { p with status := "succeeded" } else q)
         businesses := st.businesses.map (fun b => if b.id == p.businessId then
            { b with paymentStatus := "paid", paymentId := some p.id } else b)
         orders := st.orders ++
           [{ id := st.nextOrderId
              userId := u.id
              businessId := p.businessId
              orderNumber := generateOrderNumber rand
              paymentId := p.id
              items := [{ name := "Business Listing Fee"
                          description := "One-time payment to publish your business on our platform"
                          amount := 9900
                          quantity := 1 }]
              subtotal := 9900
              taxes := 0
              total := 9900
              currency := "usd"
              status := "completed"
              billingName := gw.chargeBillingName.getD (u.firstName ++ " " ++ u.lastName)
              billingEmail := u.email
              completedAt := some now }]
         systemLogs := st.systemLogs
         notifications := st.notifications
         nextPaymentId := st.nextPaymentId
         nextOrderId := st.nextOrderId + 1 : LedgerState }) (generateOrderNumber rand2)
      = false := by
    simp only [orderNumberExists, List.any_append, List.any_cons, List.any_nil,
      Bool.or_false, Bool.or_eq_false_iff]
    constructor
    · exact h2
    · rw [beq_eq_false_iff_ne]
      exact fun e => h3 e.symm
  rw [confirmPayment_succeeded u gw rand2 now2 _
    { p with status := "succeeded" } hfind' hs hdup2]
  simp [List.length_append]

/-- A second succeeded confirm delivery whose random draw repeats the
first order number hits the duplicate-key error of the unique
`orderNumber` index: the endpoint answers 500 and the ledger keeps the
single order created by the first delivery. -/
theorem confirmPayment_succeeded_then_collision (u : UserRecord)
    (gw : PaymentIntentView) (rand now rand2 now2 : Nat) (st : LedgerState)
    (p : PaymentRecord)
    (hfind : findPaymentByIntentAndUser st gw.id u.id = some p)
    (hs : gw.status = "succeeded")
    (h1 : orderNumberExists st (generateOrderNumber rand) = false)
    (hcol : generateOrderNumber rand2 = generateOrderNumber rand) :
    (confirmPayment u gw rand2 now2 (confirmPayment u gw rand now st).2).1
        = ConfirmResult.serverError ∧
    ((confirmPayment u gw rand2 now2 (confirmPayment u gw rand now st).2).2).orders.length
        = st.orders.length + 1 := by
  have hfind0 : st.payments.find?
      (fun q => q.stripePaymentIntentId == gw.id && q.userId == u.id) = some p := hfind
  have hpred0 : (p.stripePaymentIntentId == gw.id && p.userId == u.id) = true :=
    @List.find?_some PaymentRecord
      (fun q => q.stripePaymentIntentId == gw.id && q.userId == u.id) p st.payments hfind0
  rw [confirmPayment_succeeded u gw rand now st p hfind hs h1]
  have hfind' : findPaymentByIntentAndUser
      ({ payments := st.payments.map (fun q => if q.id == p.id then
            { p with status := "succeeded" } else q)
         businesses := st.businesses.map (fun b => if b.id == p.businessId then
            { b with paymentStatus := "paid", paymentId := some p.id } else b)
         orders := st.orders ++
           [{ id := st.nextOrderId
              userId := u.id
              businessId := p.businessId
              orderNumber := generateOrderNumber rand
              paymentId := p.id
              items := [{ name := "Business Listing Fee"
                          description := "One-time payment to publish your business on our platform"
                          amount := 9900
                          quantity := 1 }]
              subtotal := 9900
              taxes := 0
              total := 9900
              currency := "usd"
              status := "completed"
              billingName := gw.chargeBillingName.getD (u.firstName ++ " " ++ u.lastName)
              billingEmail := u.email
              completedAt := some now }]
         systemLogs := st.systemLogs
         notifications := st.notifications
         nextPaymentId := st.nextPaymentId
         nextOrderId := st.nextOrderId + 1 : LedgerState }) gw.id u.id
      = some { p with status := "succeeded" } := by
    exact find?_map_keyed_write (fun q => q.id)
      (fun q => q.stripePaymentIntentId == gw.id && q.userId == u.id) st.payments p
      { p with status := "succeeded" } hpred0 hfind0
  have hdup2 : orderNumberExists
      ({ payments := st.payments.map (fun q => if q.id == p.id then
            { p with status := "succeeded" } else q)
         businesses := st.businesses.map (fun b => if b.id == p.businessId then
            { b with paymentStatus := "paid", paymentId := some p.id } else b)
         orders := st.orders ++
           [{ id := st.nextOrderId
              userId := u.id
              businessId := p.businessId
              orderNumber := generateOrderNumber rand
              paymentId := p.id
              items := [{ name := "Business Listing Fee"
                          description := "One-time payment to publish your business on our platform"
                          amount := 9900
                          quantity := 1 }]
              subtotal := 9900
              taxes := 0
              total := 9900
              currency := "usd"
              status := "completed"
              billingName := gw.chargeBillingName.getD (u.firstName ++ " " ++ u.lastName)
              billingEmail := u.email
              completedAt := some now }]
         systemLogs := st.systemLogs
         notifications := st.notifications
         nextPaymentId := st.nextPaymentId
         nextOrderId := st.nextOrderId + 1 : LedgerState }) (generateOrderNumber rand2)
      = true := by
    simp only [orderNumberExists, hcol, List.any_append, List.any_cons, List.any_nil]
    simp
  rw [confirmPayment_succeeded_dupNumber u gw rand2 now2 _
    { p with status := "succeeded" } hfind' hs hdup2]
  constructor
  · rfl
  · simp

/-! Further fixtures: the ledger after a successful payment, after a
payment failure, and after an admin approval. -/

def paidPayment : PaymentRecord := { demoPayment with status := "succeeded" }

def paidBusiness : BusinessRecord :=
  { demoBusiness with paymentStatus := "paid", paymentId := some 100 }

def paidState : LedgerState :=
  { demoState with payments := [paidPayment], businesses := [paidBusiness] }

def failedBusiness : BusinessRecord := { demoBusiness with paymentStatus := "failed" }

def failedState : LedgerState := { demoState with businesses := [failedBusiness] }

def approvedBusiness : BusinessRecord :=
  { demoBusiness with paymentStatus := "paid", isApproved := true, approvedAt := some 5 }

def approvedState : LedgerState := { demoState with businesses := [approvedBusiness] }

/-- C8: when some PaymentRecord for the business already has status
succeeded, POST /create-intent answers with the distinguishable
BUSINESS_ALREADY_PAID result and leaves the ledger untouched, whatever
the gateway would have answered — so no new PaymentRecord is created
and the outcome is independent of any gateway customer/intent
request. -/
theorem already_paid_short_circuit (user : UserRecord) (businessId : Nat)
    (st : LedgerState) (business : BusinessRecord)
    (h : findBusinessOwned st businessId user.id = some business)
    (hp : existsSucceededPayment st businessId = true) :
    ∀ gw : Option GatewayCustomerIntent,
      createIntent user businessId gw st = (CreateIntentResult.alreadyPaid, st) :=
  fun gw => createIntent_alreadyPaid user businessId gw st business h hp

theorem already_paid_short_circuit_witness :
    createIntent demoUser 10 (some { customerId := "cus_9", intentId := "pi_9" }) paidState
      = (CreateIntentResult.alreadyPaid, paidState) :=
  already_paid_short_circuit demoUser 10 paidState paidBusiness rfl rfl
    (some { customerId := "cus_9", intentId := "pi_9" })

/-- C9: the claim says a recognized webhook event whose reconciliation
fails internally is answered with a 5xx so the gateway retries.  The
code contradicts it: `handlePaymentSucceeded` catches its own errors,
so with the `payment.save()` ledger write throwing, the webhook still
answers 200 `{received: true}` and the ledger keeps the payment
pending — the route's 500 branch is unreachable for dispatched
events. -/
theorem webhook_swallows_internal_failure :
    stripeWebhook
        { saveThrows := true, businessUpdateThrows := false, logCreateThrows := false }
        "payment_intent.succeeded" succeededView demoState
      = (200, demoState) := rfl

/-- C3 counterexample: starting from the demo ledger, deliver a
succeeded webhook, approve the business (the gate passes because
paymentStatus is paid), then deliver a payment-failed webhook: the
final state has isApproved = true with paymentStatus = "failed", so
the claimed invariant is violated by a reachable interleaving. -/
theorem approval_gate_violation_counterexample :
    ((stripeWebhook noFaults "payment_intent.payment_failed" declinedView
        (approveBusiness 10 3
          (stripeWebhook noFaults "payment_intent.succeeded" succeededView demoState).2).2).2).businesses.map
        (fun b => (b.isApproved, b.paymentStatus))
      = [(true, "failed")] := rfl

/-- C3 (amended): the approve route itself enforces the gate — it
refuses with no state change whenever the business's paymentStatus is
not "paid", and whenever it answers ok the business had
paymentStatus = "paid" at that moment; but later payment observations
(failed/canceled webhooks) change paymentStatus without clearing
isApproved, so the conjunction isApproved = true with
paymentStatus ≠ "paid" is reachable. -/
theorem approval_gate_amended :
    (∀ (businessId now : Nat) (st : LedgerState) (business : BusinessRecord),
      findBusinessById st businessId = some business →
      business.paymentStatus ≠ "paid" →
      approveBusiness businessId now st = (AdminResult.paymentNotCompleted, st)) ∧
    (∀ (businessId now : Nat) (st : LedgerState),
      (approveBusiness businessId now st).1 = AdminResult.ok →
      ∃ business, findBusinessById st businessId = some business ∧
        business.paymentStatus = "paid") := by
  constructor
  · exact fun businessId now st business h hp =>
      approveBusiness_notPaid businessId now st business h hp
  · intro businessId now st h
    cases hf : findBusinessById st businessId with
    | none =>
      rw [approveBusiness_notFound businessId now st hf] at h
      exact absurd h (by simp)
    | some business =>
      by_cases hp : business.paymentStatus = "paid"
      · exact ⟨business, rfl, hp⟩
      · rw [approveBusiness_notPaid businessId now st business hf hp] at h
        exact absurd h (by simp)

theorem approval_gate_amended_witness :
    approveBusiness 10 3 demoState = (AdminResult.paymentNotCompleted, demoState) :=
  approval_gate_amended.1 10 3 demoState demoBusiness rfl (by decide)

/-- C10 counterexample: rejecting a business that was previously
approved (approvedAt = some 5) records the rejection but leaves the
prior approval timestamp in place, contradicting the claim that
approvedAt is cleared. -/
theorem reject_keeps_approvedAt_counterexample :
    ((rejectBusiness 10 "incomplete docs" 9 approvedState).2).businesses.map
        (fun b => (b.isApproved, b.approvedAt, b.rejectedAt, b.rejectionReason))
      = [(false, some 5, some 9, some "incomplete docs")] := rfl

/-- C10 (amended): the reject route sets isApproved := false, stamps
rejectedAt, and stores the supplied reason, but does not clear a prior
approvedAt — the stored document keeps the business's previous
approval timestamp (only the approve route clears the opposing
rejection fields). -/
theorem reject_behavior_amended (businessId : Nat) (reason : String) (now : Nat)
    (st : LedgerState) (business : BusinessRecord) (hr : reason ≠ "")
    (h : findBusinessById st businessId = some business) :
    ((rejectBusiness businessId reason now st).2).businesses
      = st.businesses.map (fun c => if c.id == business.id then
          { business with isApproved := false, rejectedAt := some now,
                          rejectionReason := some reason } else c) ∧
    ({ business with isApproved := false
                     rejectedAt := some now
                     rejectionReason := some reason } : BusinessRecord).approvedAt
      = business.approvedAt := by
  rw [rejectBusiness_found businessId reason now st business hr h]
  exact ⟨rfl, rfl⟩

theorem reject_behavior_amended_witness :
    ((rejectBusiness 10 "incomplete docs" 9 approvedState).2).businesses
      = [{ approvedBusiness with isApproved := false
                                 rejectedAt := some 9
                                 rejectionReason := some "incomplete docs" }] :=
  (reject_behavior_amended 10 "incomplete docs" 9 approvedState approvedBusiness
    (by decide) rfl).1.trans rfl

/-- C1 counterexample: the confirm endpoint has no idempotency guard,
so delivering the same (pi_1, succeeded) observation twice through it,
with distinct random draws (ORD-5 then ORD-6, so the unique
orderNumber index is not hit), creates two OrderRecords where a single
delivery creates one — the claimed identical-final-state /
at-most-one-OrderRecord property fails. -/
theorem confirm_redelivery_counterexample :
    ((confirmPayment demoUser succeededView 6 8
        (confirmPayment demoUser succeededView 5 7 demoState).2).2).orders.length = 2 ∧
    ((confirmPayment demoUser succeededView 5 7 demoState).2).orders.length = 1 ∧
    ((confirmPayment demoUser succeededView 6 8
        (confirmPayment demoUser succeededView 5 7 demoState).2).2).orders.map
        (fun o => o.orderNumber) = ["ORD-5", "ORD-6"] :=
  ⟨rfl, rfl, rfl⟩

/-- C1 (amended): re-delivering the same (intentId, status) observation
is idempotent on the ledger view (PaymentRecords, businesses, orders)
for the webhook channel with any event type, and for the confirm
endpoint whenever the observed status is not succeeded; but the
confirm endpoint has no idempotency guard for succeeded: a repeated
succeeded confirm whose random draw yields a fresh order number
appends a second OrderRecord, and one whose draw repeats the first
order number hits the duplicate-key error of the unique orderNumber
index, answering 500 with the single first order persisted — in
neither case is the re-delivery the claimed no-op. -/
theorem redelivery_idempotence_amended :
    (∀ (ev : String) (pi : PaymentIntentView) (st : LedgerState),
      ledgerView (stripeWebhook noFaults ev pi (stripeWebhook noFaults ev pi st).2).2
        = ledgerView (stripeWebhook noFaults ev pi st).2) ∧
    (∀ (u : UserRecord) (gw : PaymentIntentView) (rand now rand2 now2 : Nat)
        (st : LedgerState), gw.status ≠ "succeeded" →
      (confirmPayment u gw rand2 now2 (confirmPayment u gw rand now st).2).2
        = (confirmPayment u gw rand now st).2) ∧
    (∀ (u : UserRecord) (gw : PaymentIntentView) (rand now rand2 now2 : Nat)
        (st : LedgerState) (p : PaymentRecord),
      findPaymentByIntentAndUser st gw.id u.id = some p → gw.status = "succeeded" →
      orderNumberExists st (generateOrderNumber rand) = false →
      orderNumberExists st (generateOrderNumber rand2) = false →
      generateOrderNumber rand2 ≠ generateOrderNumber rand →
      ((confirmPayment u gw rand now st).2).orders.length = st.orders.length + 1 ∧
      ((confirmPayment u gw rand2 now2 (confirmPayment u gw rand now st).2).2).orders.length
        = st.orders.length + 2) ∧
    (∀ (u : UserRecord) (gw : PaymentIntentView) (rand now rand2 now2 : Nat)
        (st : LedgerState) (p : PaymentRecord),
      findPaymentByIntentAndUser st gw.id u.id = some p → gw.status = "succeeded" →
      orderNumberExists st (generateOrderNumber rand) = false →
      generateOrderNumber rand2 = generateOrderNumber rand →
      (confirmPayment u gw rand2 now2 (confirmPayment u gw rand now st).2).1
          = ConfirmResult.serverError ∧
      ((confirmPayment u gw rand2 now2 (confirmPayment u gw rand now st).2).2).orders.length
          = st.orders.length + 1) :=
  ⟨stripeWebhook_reapply,
   confirmPayment_reapply_nonSucceeded,
   confirmPayment_succeeded_adds_order_each_time,
   confirmPayment_succeeded_then_collision⟩

theorem redelivery_idempotence_amended_witness :
    (confirmPayment demoUser canceledView 3 4
        (confirmPayment demoUser canceledView 5 7 demoState).2).2
      = (confirmPayment demoUser canceledView 5 7 demoState).2 :=
  redelivery_idempotence_amended.2.1 demoUser canceledView 5 7 3 4 demoState (by decide)

/-- C2 counterexample: a first transition to succeeded delivered by the
webhook marks the payment succeeded and the business paid, but creates
no OrderRecord and links nothing into the payment metadata — the claim
that either channel creates exactly one OrderRecord with a metadata
link fails on the webhook channel. -/
theorem webhook_success_no_order_counterexample :
    ((stripeWebhook noFaults "payment_intent.succeeded" succeededView demoState).2).orders.length
        = 0 ∧
    ((stripeWebhook noFaults "payment_intent.succeeded" succeededView demoState).2).payments.map
        (fun p => (p.status, p.metaOrderId)) = [("succeeded", none)] ∧
    ((stripeWebhook noFaults "payment_intent.succeeded" succeededView demoState).2).businesses.map
        (fun b => b.paymentStatus) = ["paid"] :=
  ⟨rfl, rfl, rfl⟩

/-- C2 (amended): on a succeeded observation for a stored payment with
a fresh order number, the confirm endpoint marks the payment succeeded,
sets the business to paid (with paymentId) and creates exactly one new
OrderRecord — but the claimed metadata link is not persisted: line 211
mutates the Mixed metadata path without markModified, so the stored
document keeps its previous metadata.orderId.  The webhook handler only
marks the payment succeeded and the business paid: it creates no
OrderRecord and writes no metadata link either — so neither channel
links the order id back into PaymentRecord.metadata. -/
theorem first_success_effects_amended :
    (∀ (u : UserRecord) (gw : PaymentIntentView) (rand now : Nat) (st : LedgerState)
        (p : PaymentRecord),
      findPaymentByIntentAndUser st gw.id u.id = some p → gw.status = "succeeded" →
      orderNumberExists st (generateOrderNumber rand) = false →
      ((confirmPayment u gw rand now st).2).payments
          = st.payments.map (fun q => if q.id == p.id then
              { p with status := "succeeded" } else q) ∧
      ({ p with status := "succeeded" } : PaymentRecord).metaOrderId = p.metaOrderId ∧
      ((confirmPayment u gw rand now st).2).businesses
          = st.businesses.map (fun b => if b.id == p.businessId then
              { b with paymentStatus := "paid", paymentId := some p.id } else b) ∧
      ((confirmPayment u gw rand now st).2).orders.length = st.orders.length + 1) ∧
    (∀ (pi : PaymentIntentView) (st : LedgerState) (p : PaymentRecord),
      findPaymentByIntent st pi.id = some p →
      ((stripeWebhook noFaults "payment_intent.succeeded" pi st).2).payments
          = st.payments.map (fun q => if q.id == p.id then
              { p with status := "succeeded" } else q) ∧
      ((stripeWebhook noFaults "payment_intent.succeeded" pi st).2).businesses
          = st.businesses.map (fun b => if b.id == p.businessId then
              { b with paymentStatus := "paid" } else b) ∧
      ((stripeWebhook noFaults "payment_intent.succeeded" pi st).2).orders = st.orders) := by
  constructor
  · intro u gw rand now st p hfind hs hdup
    rw [confirmPayment_succeeded u gw rand now st p hfind hs hdup]
    refine ⟨rfl, rfl, rfl, by simp⟩
  · intro pi st p hfind
    have hred : (stripeWebhook noFaults "payment_intent.succeeded" pi st).2
        = handlePaymentSucceeded noFaults pi st := rfl
    rw [hred, handlePaymentSucceeded_found pi st p hfind]
    exact ⟨rfl, rfl, rfl⟩

theorem first_success_effects_amended_witness :
    ((confirmPayment demoUser succeededView 5 7 demoState).2).orders.length
      = demoState.orders.length + 1 :=
  (first_success_effects_amended.1 demoUser succeededView 5 7 demoState demoPayment
    rfl rfl rfl).2.2.2

/-- A keyed update whose replacement fails a predicate preserves the
absence of any document satisfying that predicate. -/
theorem any_map_keyed_write_false {α : Type} (idf : α → Nat) (pred : α → Bool)
    (k : Nat) (p' : α) (hp : pred p' = false) (l : List α) (h : l.any pred = false) :
    (l.map (fun q => if idf q == k then p' else q)).any pred = false := by
  induction l with
  | nil => simp
  | cons a t ih =>
    simp only [List.any_cons, Bool.or_eq_false_iff] at h
    simp only [List.map_cons, List.any_cons, Bool.or_eq_false_iff]
    refine ⟨?_, ih h.2⟩
    by_cases hid : (idf a == k) = true
    · rw [if_pos hid]; exact hp
    · rw [if_neg hid]; exact h.1

/-- C4 counterexample: a PaymentRecord stored as succeeded is not
terminal — a later canceled observation through the webhook overwrites
the stored status (and even resets the paid business back to pending),
contradicting the claim that later observations are ignored. -/
theorem succeeded_not_terminal_counterexample :
    paidPayment.status = "succeeded" ∧
    ((stripeWebhook noFaults "payment_intent.canceled" canceledView paidState).2).payments.map
        (fun p => p.status) = ["canceled"] ∧
    ((stripeWebhook noFaults "payment_intent.canceled" canceledView paidState).2).businesses.map
        (fun b => b.paymentStatus) = ["pending"] :=
  ⟨rfl, rfl, rfl⟩

/-- C4 (amended): succeeded is not a terminal stored status.  A later
observation of a different (schema-valid) status overwrites it on every
channel: the canceled webhook rewrites the record to canceled, the
confirm endpoint rewrites it to whatever enum-valid non-succeeded
status the gateway reports, and the status poll does the same; only a
re-observation of the same succeeded status leaves the record (and the
whole state, for the poll) unchanged. -/
theorem succeeded_overwrite_amended :
    (∀ (pi : PaymentIntentView) (st : LedgerState) (p : PaymentRecord),
      findPaymentByIntent st pi.id = some p → p.status = "succeeded" →
      ((stripeWebhook noFaults "payment_intent.canceled" pi st).2).payments
        = st.payments.map (fun q => if q.id == p.id then
            { p with status := "canceled" } else q)) ∧
    (∀ (u : UserRecord) (gw : PaymentIntentView) (rand now : Nat) (st : LedgerState)
        (p : PaymentRecord),
      findPaymentByIntentAndUser st gw.id u.id = some p → p.status = "succeeded" →
      gw.status ≠ "succeeded" → gw.status ≠ "payment_failed" →
      validPaymentStatus gw.status = true →
      ((confirmPayment u gw rand now st).2).payments
        = st.payments.map (fun q => if q.id == p.id then
            { p with status := gw.status } else q)) ∧
    (∀ (u : UserRecord) (paymentId : Nat) (s : String) (st : LedgerState)
        (p : PaymentRecord),
      findPaymentByIdAndUser st paymentId u.id = some p → p.status = "succeeded" →
      s ≠ "succeeded" → validPaymentStatus s = true →
      ((getPaymentStatus u paymentId (some s) st).2).payments
        = st.payments.map (fun q => if q.id == p.id then
            { p with status := s } else q)) ∧
    (∀ (u : UserRecord) (paymentId : Nat) (st : LedgerState) (p : PaymentRecord),
      findPaymentByIdAndUser st paymentId u.id = some p → p.status = "succeeded" →
      getPaymentStatus u paymentId (some "succeeded") st
        = (GetStatusResult.ok p.status p.failureReason, st)) := by
  refine ⟨?_, ?_, ?_, ?_⟩
  · intro pi st p hfind _
    have hred : (stripeWebhook noFaults "payment_intent.canceled" pi st).2
        = handlePaymentCanceled pi st := rfl
    rw [hred, handlePaymentCanceled_found pi st p hfind]
  · intro u gw rand now st p hfind _ hs hpf hv
    rw [confirmPayment_otherValid u gw rand now st p hfind hs hpf hv]
  · intro u paymentId s st p hfind hp hs hv
    have hne : p.status ≠ s := by rw [hp]; exact fun hc => hs hc.symm
    rw [getPaymentStatus_diffValid u paymentId s st p hfind hne hv]
  · intro u paymentId st p hfind hp
    exact getPaymentStatus_same u paymentId "succeeded" st p hfind hp

theorem succeeded_overwrite_amended_witness :
    getPaymentStatus demoUser 100 (some "succeeded") paidState
      = (GetStatusResult.ok paidPayment.status paidPayment.failureReason, paidState) :=
  succeeded_overwrite_amended.2.2.2 demoUser 100 paidState paidPayment rfl rfl

/-- C5 counterexample: the status poll does not run the reconciliation
used by confirm/webhook.  Observing succeeded through the poll only
rewrites the stored status: the business stays pending and no
OrderRecord appears, while the confirm endpoint on the same observation
sets the business paid and creates an order. -/
theorem getStatus_no_side_effects_counterexample :
    ((getPaymentStatus demoUser 100 (some "succeeded") demoState).2).businesses.map
        (fun b => b.paymentStatus) = ["pending"] ∧
    ((getPaymentStatus demoUser 100 (some "succeeded") demoState).2).orders.length = 0 ∧
    ((getPaymentStatus demoUser 100 (some "succeeded") demoState).2).payments.map
        (fun p => p.status) = ["succeeded"] ∧
    ((confirmPayment demoUser succeededView 5 7 demoState).2).businesses.map
        (fun b => b.paymentStatus) = ["paid"] ∧
    ((confirmPayment demoUser succeededView 5 7 demoState).2).orders.length = 1 :=
  ⟨rfl, rfl, rfl, rfl, rfl⟩

/-- C5 (amended): the status poll never updates the business ledger or
the order ledger, for any input; when the gateway reports a differing
(schema-valid) status for a found payment it only overwrites the stored
payment status and returns the merged view to the caller.  None of the
downstream succeeded-reconciliation effects (business paid, OrderRecord
creation) run on this path. -/
theorem getStatus_amended :
    (∀ (u : UserRecord) (paymentId : Nat) (gwStatus : Option String) (st : LedgerState),
      ((getPaymentStatus u paymentId gwStatus st).2).businesses = st.businesses ∧
      ((getPaymentStatus u paymentId gwStatus st).2).orders = st.orders) ∧
    (∀ (u : UserRecord) (paymentId : Nat) (s : String) (st : LedgerState)
        (p : PaymentRecord),
      findPaymentByIdAndUser st paymentId u.id = some p → p.status ≠ s →
      validPaymentStatus s = true →
      getPaymentStatus u paymentId (some s) st
        = (GetStatusResult.ok s p.failureReason,
           { st with payments := st.payments.map (fun q =>
               if q.id == p.id then { p with status := s } else q) })) := by
  constructor
  · intro u paymentId gwStatus st
    cases hfind : findPaymentByIdAndUser st paymentId u.id with
    | none => rw [getPaymentStatus_notFound u paymentId gwStatus st hfind]; exact ⟨rfl, rfl⟩
    | some p =>
      cases gwStatus with
      | none => rw [getPaymentStatus_gatewayDown u paymentId st p hfind]; exact ⟨rfl, rfl⟩
      | some s =>
        by_cases hs : p.status = s
        · rw [getPaymentStatus_same u paymentId s st p hfind hs]; exact ⟨rfl, rfl⟩
        · cases hv : validPaymentStatus s with
          | true =>
            rw [getPaymentStatus_diffValid u paymentId s st p hfind hs hv]
            exact ⟨rfl, rfl⟩
          | false =>
            rw [getPaymentStatus_diffInvalid u paymentId s st p hfind hs hv]
            exact ⟨rfl, rfl⟩
  · exact getPaymentStatus_diffValid

theorem getStatus_amended_witness :
    (getPaymentStatus demoUser 100 (some "processing") demoState).1
      = GetStatusResult.ok "processing" none :=
  (congrArg Prod.fst (getStatus_amended.2 demoUser 100 "processing" demoState demoPayment
    rfl (by decide) (by decide))).trans rfl

/-- C6 counterexample: the confirm endpoint observing status "failed"
with last_payment_error "card_declined" marks the payment failed but
records no failure reason and leaves the business paymentStatus at
pending — only the webhook channel performs the full failed
transition. -/
theorem confirm_failed_no_business_update_counterexample :
    ((confirmPayment demoUser declinedView 5 7 demoState).2).payments.map
        (fun p => (p.status, p.failureReason)) = [("failed", none)] ∧
    ((confirmPayment demoUser declinedView 5 7 demoState).2).businesses.map
        (fun b => b.paymentStatus) = ["pending"] :=
  ⟨rfl, rfl⟩

/-- C6 (amended): the payment_failed webhook performs the full claimed
transition — record marked failed with failureReason taken from
last_payment_error.message (default "Payment failed"), business
paymentStatus set to failed, no OrderRecord — but the confirm channel
only stores the observed "failed" status: it sets no failure reason
(its dead "payment_failed" branch never matches a schema-valid status)
and never updates the business's paymentStatus. -/
theorem failed_transition_amended :
    (∀ (pi : PaymentIntentView) (st : LedgerState) (p : PaymentRecord),
      findPaymentByIntent st pi.id = some p →
      ((stripeWebhook noFaults "payment_intent.payment_failed" pi st).2).payments
          = st.payments.map (fun q => if q.id == p.id then
              { p with status := "failed"
                       failureReason := some (pi.lastPaymentErrorMessage.getD "Payment failed") }
              else q) ∧
      ((stripeWebhook noFaults "payment_intent.payment_failed" pi st).2).businesses
          = st.businesses.map (fun b => if b.id == p.businessId then
              { b with paymentStatus := "failed" } else b) ∧
      ((stripeWebhook noFaults "payment_intent.payment_failed" pi st).2).orders = st.orders) ∧
    (∀ (u : UserRecord) (gw : PaymentIntentView) (rand now : Nat) (st : LedgerState)
        (p : PaymentRecord),
      findPaymentByIntentAndUser st gw.id u.id = some p → gw.status = "failed" →
      confirmPayment u gw rand now st
        = (ConfirmResult.ok "failed" "Payment status updated",
           { st with payments := st.payments.map (fun q =>
               if q.id == p.id then { p with status := "failed" } else q) })) := by
  constructor
  · intro pi st p hfind
    have hred : (stripeWebhook noFaults "payment_intent.payment_failed" pi st).2
        = handlePaymentFailed pi st := rfl
    rw [hred, handlePaymentFailed_found pi st p hfind]
    exact ⟨rfl, rfl, rfl⟩
  · intro u gw rand now st p hfind hs0
    have hs : gw.status ≠ "succeeded" := by rw [hs0]; decide
    have hpf : gw.status ≠ "payment_failed" := by rw [hs0]; decide
    have hv : validPaymentStatus gw.status = true := by rw [hs0]; decide
    have := confirmPayment_otherValid u gw rand now st p hfind hs hpf hv
    rw [hs0] at this
    exact this

theorem failed_transition_amended_witness :
    ((stripeWebhook noFaults "payment_intent.payment_failed" declinedView demoState).2).orders
      = demoState.orders :=
  (failed_transition_amended.1 declinedView demoState demoPayment rfl).2.2

/-- C7 counterexample: a canceled observation arriving through the
confirm endpoint marks the record canceled but does not reset the
business paymentStatus — a business left at "failed" stays "failed",
contradicting the claim for the confirm channel. -/
theorem confirm_canceled_no_reset_counterexample :
    ((confirmPayment demoUser canceledView 5 7 failedState).2).payments.map
        (fun p => p.status) = ["canceled"] ∧
    ((confirmPayment demoUser canceledView 5 7 failedState).2).businesses.map
        (fun b => b.paymentStatus) = ["failed"] :=
  ⟨rfl, rfl⟩

/-- C7 (amended): the canceled webhook marks the record canceled and
resets the business paymentStatus to pending; the confirm channel only
stores the canceled status.  In either case a subsequent create-intent
call does not short-circuit: the already-paid check only looks for a
succeeded PaymentRecord, a canceled webhook preserves the absence of
succeeded payments for the business, and with no succeeded payment the
call creates a fresh gateway intent and a new pending PaymentRecord. -/
theorem canceled_transition_amended :
    (∀ (pi : PaymentIntentView) (st : LedgerState) (p : PaymentRecord),
      findPaymentByIntent st pi.id = some p →
      ((stripeWebhook noFaults "payment_intent.canceled" pi st).2).payments
          = st.payments.map (fun q => if q.id == p.id then
              { p with status := "canceled" } else q) ∧
      ((stripeWebhook noFaults "payment_intent.canceled" pi st).2).businesses
          = st.businesses.map (fun b => if b.id == p.businessId then
              { b with paymentStatus := "pending" } else b)) ∧
    (∀ (pi : PaymentIntentView) (st : LedgerState) (businessId : Nat),
      existsSucceededPayment st businessId = false →
      existsSucceededPayment
          ((stripeWebhook noFaults "payment_intent.canceled" pi st).2) businessId = false) ∧
    (∀ (user : UserRecord) (businessId : Nat) (g : GatewayCustomerIntent)
        (st : LedgerState) (business : BusinessRecord),
      findBusinessOwned st businessId user.id = some business →
      existsSucceededPayment st businessId = false →
      (createIntent user businessId (some g) st).1
          = CreateIntentResult.ok g.intentId st.nextPaymentId 9900 "usd" ∧
      ((createIntent user businessId (some g) st).2).payments.length
          = st.payments.length + 1) := by
  refine ⟨?_, ?_, ?_⟩
  · intro pi st p hfind
    have hred : (stripeWebhook noFaults "payment_intent.canceled" pi st).2
        = handlePaymentCanceled pi st := rfl
    rw [hred, handlePaymentCanceled_found pi st p hfind]
    exact ⟨rfl, rfl⟩
  · intro pi st businessId h
    have hred : (stripeWebhook noFaults "payment_intent.canceled" pi st).2
        = handlePaymentCanceled pi st := rfl
    rw [hred]
    cases hfind : findPaymentByIntent st pi.id with
    | none => rw [handlePaymentCanceled_notFound pi st hfind]; exact h
    | some p =>
      rw [handlePaymentCanceled_found pi st p hfind]
      have hp : ((fun q : PaymentRecord =>
          q.businessId == businessId && q.status == "succeeded")
            { p with status := "canceled" }) = false := by
        show (p.businessId == businessId && ("canceled" == "succeeded")) = false
        rw [show (("canceled" : String) == "succeeded") = false from rfl, Bool.and_false]
      exact any_map_keyed_write_false (fun q : PaymentRecord => q.id)
        (fun q => q.businessId == businessId && q.status == "succeeded") p.id
        { p with status := "canceled" } hp st.payments h
  · intro user businessId g st business h hp
    rw [createIntent_fresh user businessId g st business h hp]
    constructor
    · rfl
    · simp

theorem canceled_transition_amended_witness :
    (createIntent demoUser 10 (some { customerId := "cus_9", intentId := "pi_9" })
        demoState).1
      = CreateIntentResult.ok "pi_9" demoState.nextPaymentId 9900 "usd" :=
  (canceled_transition_amended.2.2 demoUser 10
    { customerId := "cus_9", intentId := "pi_9" } demoState demoBusiness rfl rfl).1
